import Mathlib

set_option maxRecDepth 100000

/-!
Verification of the ploy webhook deployment server (ploy.py) against its
specification. The Python source is shallowly embedded: every function is a
total Lean function, machine-level details are made explicit, and the
behaviour of external collaborators (the subprocess module, the JSON parser,
the HTTP layer) is passed in as explicit data so that theorems quantify over
all of their possible behaviours. A Python exception escaping the handler is
modelled by the `Except.error` constructor; a total embedded function that
always returns `Except.ok` therefore models code that never raises.
-/

namespace Ploy

/-! ## Python values and Python operator semantics

The SQLAlchemy columns `events`, `refs` and `args` are JSON columns: at
runtime they hold arbitrary JSON-decoded Python values. `JValue` models
those values; `obj` models a dict as an association list with unique keys.
-/

inductive JValue where
  | null : JValue
  | bool : Bool → JValue
  | num : Int → JValue
  | str : String → JValue
  | arr : List JValue → JValue
  | obj : List (String × JValue) → JValue

/-- Lookup of a key in a dict modelled as an association list. -/
def lookupKey (k : String) : List (String × JValue) → Option JValue
  | [] => none
  | kv :: rest => if kv.1 == k then some kv.2 else lookupKey k rest

mutual

/-- Python `==` on JSON-decoded values: structural equality on lists and
dicts, with the Python quirk that `True == 1` and `False == 0`. -/
def pyJEq : JValue → JValue → Bool
  | .null, .null => true
  | .bool a, .bool b => a == b
  | .num a, .num b => a == b
  | .bool a, .num b => (if a then (1 : Int) else 0) == b
  | .num a, .bool b => a == (if b then (1 : Int) else 0)
  | .str a, .str b => a == b
  | .arr a, .arr b => pyJEqList a b
  | .obj a, .obj b => a.length == b.length && pyJEqObjMem a b
  | _, _ => false

/-- Python `==` on lists: same length and elementwise equality. -/
def pyJEqList : List JValue → List JValue → Bool
  | [], [] => true
  | x :: xs, y :: ys => pyJEq x y && pyJEqList xs ys
  | _, _ => false

/-- Each key of the first dict is present in the second with an equal value. -/
def pyJEqObjMem : List (String × JValue) → List (String × JValue) → Bool
  | [], _ => true
  | kv :: rest, b =>
    (match lookupKey kv.1 b with
     | some v2 => pyJEq kv.2 v2
     | none => false) && pyJEqObjMem rest b

end

/-- The value `request.headers.get(name)` evaluates to in Python: `None`
when the header is absent, the header string otherwise. -/
def headerToPy : Option String → JValue
  | none => .null
  | some s => .str s

/-- Exceptions that the embedded code can raise. -/
inductive HookError where
  | typeError : HookError
  | keyError : HookError
  | unicodeDecodeError : HookError
  | jsonDecodeError : HookError
deriving DecidableEq

/-- Python string slicing `s[n:]` (by code point, total: short strings give ""). -/
def strDrop (s : String) (n : Nat) : String := String.mk (s.data.drop n)

/-- Python string slicing `s[:n]`. -/
def strTake (s : String) (n : Nat) : String := String.mk (s.data.take n)

/-- Python `sub in hay` on strings: contiguous substring test. -/
def strContains (hay sub : String) : Bool :=
  (List.range (hay.length + 1)).any (fun i => strTake (strDrop hay i) sub.length == sub)

/-- Python `x in y` as used on line 120 of ploy.py. On a list it is
elementwise `==`; on a string it is the substring test (and a non-string
left operand raises TypeError); on a dict it is key membership (an
unhashable left operand raises TypeError); on any other value it raises
TypeError. -/
def pyIn (x y : JValue) : Except HookError Bool :=
  match y with
  | .arr l => .ok (l.any (fun e => pyJEq x e))
  | .str s =>
    match x with
    | .str xs => .ok (strContains s xs)
    | _ => .error .typeError
  | .obj kvs =>
    match x with
    | .str xs => .ok (kvs.any (fun kv => kv.1 == xs))
    | .arr _ => .error .typeError
    | .obj _ => .error .typeError
    | _ => .ok false
  | _ => .error .typeError

/-- Python subscription `data[k]` with a string key, as used on line 120:
KeyError when the key is missing from a dict, TypeError when `data` is not
a dict. -/
def pyGetItem : JValue → String → Except HookError JValue
  | .obj kvs, k =>
    match lookupKey k kvs with
    | some v => .ok v
    | none => .error .keyError
  | _, _ => .error .typeError

/-- All characters of the string are ASCII (hmac.compare_digest demands
this of str arguments). -/
def isAsciiStr (s : String) : Bool := s.data.all (fun c => c.toNat < 128)

/-- Model of hmac.compare_digest on two str arguments: equality (the
constant-time property is a timing property with no functional content),
raising TypeError when either argument is not ASCII-only. -/
def compareDigest (a b : String) : Except HookError Bool :=
  if isAsciiStr a && isAsciiStr b then .ok (a == b) else .error .typeError

/-! ## Model of hashlib.sha1 and hmac (RFC 2104 / FIPS 180)

Bytes are natural numbers below 256; 32-bit arithmetic is explicit
`% 2^32`. These model the `hashlib`/`hmac` library calls on line 111 of
ploy.py, which compute HMAC-SHA1 and render it as lowercase hex. -/

/-- Truncation to a 32-bit word. -/
def w32 (n : Nat) : Nat := n % 4294967296

/-- 32-bit left rotation by k of a word. -/
def rotl (k n : Nat) : Nat := w32 ((n <<< k) ||| (n >>> (32 - k)))

/-- Big-endian byte rendering of n in k bytes. -/
def beBytes (k n : Nat) : List Nat :=
  (List.range k).map (fun i => (n >>> (8 * (k - 1 - i))) % 256)

/-- Big-endian word from a byte list. -/
def beWord (bs : List Nat) : Nat := bs.foldl (fun a b => a * 256 + b) 0

/-- Splits a list into chunks of n+1 elements (structural fuel recursion so
that the kernel can evaluate it; the fuel `l.length` always suffices since
every step consumes at least one element). -/
def chunksByAux : Nat → Nat → List α → List (List α)
  | 0, _, _ => []
  | _, _, [] => []
  | fuel + 1, n, x :: xs => (x :: xs.take n) :: chunksByAux fuel n (xs.drop n)

/-- Splits a list into chunks of n+1 elements. -/
def chunksBy (n : Nat) (l : List α) : List (List α) := chunksByAux l.length n l

/-- One step of the SHA-1 message-schedule extension:
w[j] = rotl1 (w[j-3] xor w[j-8] xor w[j-14] xor w[j-16]). -/
def extendStep (acc : List Nat) : List Nat :=
  let j := acc.length
  acc ++ [rotl 1 ((acc.getD (j - 3) 0) ^^^ (acc.getD (j - 8) 0) ^^^
    (acc.getD (j - 14) 0) ^^^ (acc.getD (j - 16) 0))]

/-- Extends the 16 block words to the 80 schedule words. -/
def extendWords (ws : List Nat) : List Nat :=
  (List.range 64).foldl (fun acc _ => extendStep acc) ws

/-- The five 32-bit SHA-1 chaining words. -/
structure Sha1State where
  a : Nat
  b : Nat
  c : Nat
  d : Nat
  e : Nat

/-- SHA-1 initialization vector. -/
def sha1Init : Sha1State := ⟨0x67452301, 0xEFCDAB89, 0x98BADCFE, 0x10325476, 0xC3D2E1F0⟩

/-- SHA-1 round function (choose / parity / majority / parity). -/
def sha1F (i b c d : Nat) : Nat :=
  if i < 20 then (b &&& c) ||| ((b ^^^ 0xFFFFFFFF) &&& d)
  else if i < 40 then b ^^^ c ^^^ d
  else if i < 60 then (b &&& c) ||| (b &&& d) ||| (c &&& d)
  else b ^^^ c ^^^ d

/-- SHA-1 round constants. -/
def sha1K (i : Nat) : Nat :=
  if i < 20 then 0x5A827999 else if i < 40 then 0x6ED9EBA1
  else if i < 60 then 0x8F1BBCDC else 0xCA62C1D6

/-- SHA-1 compression of one 64-byte block. -/
def sha1ProcessBlock (st : Sha1State) (block : List Nat) : Sha1State :=
  let ws := extendWords ((chunksBy 3 block).map beWord)
  let fin := (List.range 80).foldl
    (fun (t : Sha1State) i =>
      ⟨w32 (rotl 5 t.a + sha1F i t.b t.c t.d + t.e + sha1K i + ws.getD i 0),
        t.a, rotl 30 t.b, t.c, t.d⟩)
    st
  ⟨w32 (st.a + fin.a), w32 (st.b + fin.b), w32 (st.c + fin.c),
    w32 (st.d + fin.d), w32 (st.e + fin.e)⟩

/-- SHA-1 of a byte list: pad with 0x80, zeros to 56 mod 64, and the
64-bit big-endian bit length; compress each 64-byte block; render the
chaining words big-endian. -/
def sha1 (msg : List Nat) : List Nat :=
  let padded := msg ++ 0x80 ::
    (List.replicate ((119 - msg.length % 64) % 64) 0 ++ beBytes 8 (msg.length * 8))
  let st := (chunksBy 63 padded).foldl sha1ProcessBlock sha1Init
  beBytes 4 st.a ++ beBytes 4 st.b ++ beBytes 4 st.c ++ beBytes 4 st.d ++ beBytes 4 st.e

/-- HMAC-SHA1 (RFC 2104, block size 64) as computed by hmac.new(key, msg,
hashlib.sha1).digest(). -/
def hmacSha1 (key msg : List Nat) : List Nat :=
  let k0 := if 64 < key.length then sha1 key else key
  let kp := k0 ++ List.replicate (64 - k0.length) 0
  sha1 ((kp.map (fun b => b ^^^ 0x5C)) ++ sha1 ((kp.map (fun b => b ^^^ 0x36)) ++ msg))

/-- Lowercase hex digit of a nibble, as %x formatting produces: code 48
onward for 0-9, code 87 onward (lowercase letters) for 10-15. -/
def hexChar (n : Nat) : Char :=
  if n < 10 then Char.ofNat (48 + n) else Char.ofNat (87 + n)

/-- Two lowercase hex digits of a byte. -/
def byteToHex (b : Nat) : List Char := [hexChar (b / 16 % 16), hexChar (b % 16)]

/-- Lowercase hex rendering of a byte list, as .hexdigest() produces. -/
def bytesToHex (bs : List Nat) : String := String.mk (bs.map byteToHex).flatten

/-- UTF-8 encoding of one code point. -/
def utf8Bytes (c : Char) : List Nat :=
  let n := c.toNat
  if n < 0x80 then [n]
  else if n < 0x800 then [0xC0 ||| (n >>> 6), 0x80 ||| (n &&& 0x3F)]
  else if n < 0x10000 then
    [0xE0 ||| (n >>> 12), 0x80 ||| ((n >>> 6) &&& 0x3F), 0x80 ||| (n &&& 0x3F)]
  else
    [0xF0 ||| (n >>> 18), 0x80 ||| ((n >>> 12) &&& 0x3F),
      0x80 ||| ((n >>> 6) &&& 0x3F), 0x80 ||| (n &&& 0x3F)]

/-- Python str.encode(): UTF-8 bytes of a string. -/
def encode (s : String) : List Nat := (s.data.map utf8Bytes).flatten

/-! ## Data model (ploy.py lines 27-101)

`Target` mirrors the Target model: `events`, `refs` are JSON columns
(arbitrary JSON values at runtime; the CLI stores lists of strings), `args`
is the command vector, `timeout` the optional bound handed to
process.communicate. `Deployment` mirrors the Deployment model with the
column defaults of lines 87-98; the autoincrement primary key and the
relationship are storage concerns carried by the external session. -/

structure Target where
  id : String
  description : String := ""
  enabled : Bool := true
  key : String
  events : JValue
  refs : JValue
  args : List String
  timeout : Option Nat := none

structure Deployment where
  target_id : String
  start_time : Nat
  elapsed_time : Option Nat := none
  timed_out : Bool := false
  timeout : Option Nat := none
  raised_exception : Bool := false
  exception : Option String := none
  stdout : Option String := none
  stderr : Option String := none
  status : Option Int := none
deriving DecidableEq

/-- Outcome of process.communicate once the process launched: normal exit
with captured stdout/stderr bytes, exit code and elapsed timer value, or
subprocess.TimeoutExpired with the elapsed timer value at the kill. A
TimeoutExpired can only occur when a bound was passed, which theorems state
as a side condition. -/
inductive WaitResult where
  | finished : List Nat → List Nat → Int → Nat → WaitResult
  | timedOut : Nat → WaitResult

/-- Outcome of the subprocess.Popen call: a launched process, or one of the
three exception classes caught on lines 50-61 (OSError, ValueError,
subprocess.SubprocessError), carrying the rendering of the exception. -/
inductive SpawnResult where
  | launched : WaitResult → SpawnResult
  | osError : String → SpawnResult
  | valueError : SpawnResult
  | subprocessError : String → SpawnResult

/-- The ambient behaviour Target.execute interacts with: the wall clock
(datetime.datetime.now), the bytes.decode(errors="replace") text decoder,
and what the subprocess machinery does for this launch. Quantifying over
ExecEnv quantifies over every environment behaviour. -/
structure ExecEnv where
  now : Nat
  decode : List Nat → String
  spawn : SpawnResult

/-- Target.execute (ploy.py lines 40-78): builds a Deployment, spawns the
process, and fills the Deployment fields according to the outcome. The
embedding is a total function, which models that every handled failure is
returned as a value; process.kill() on the timeout path is an external side
effect with no bearing on the returned record. -/
def Target.execute (t : Target) (env : ExecEnv) : Deployment :=
  let deployment : Deployment := { target_id := t.id, start_time := env.now }
  match env.spawn with
  | .osError error =>
    { deployment with
      raised_exception := true,
      exception := some ("operating system error: " ++ error) }
  | .valueError =>
    { deployment with
      raised_exception := true,
      exception := some "failed to open process" }
  | .subprocessError exc =>
    { deployment with
      raised_exception := true,
      exception := some ("subprocess error: " ++ exc) }
  | .launched (.timedOut elapsed) =>
    { deployment with
      timed_out := true,
      timeout := t.timeout,
      elapsed_time := some elapsed }
  | .launched (.finished out err code elapsed) =>
    { deployment with
      stdout := some (env.decode out),
      stderr := some (env.decode err),
      status := some code,
      elapsed_time := some elapsed }

/-! ## The hook endpoint (ploy.py lines 103-127) -/

/-- The parts of the Flask request the handler reads: the raw body bytes
and the two headers (absent headers are `none`, as headers.get returns
None). -/
structure Request where
  body : List Nat
  xHubSignature : Option String
  xGitHubEvent : Option String

/-- A Flask Response together with the Deployment rows added to the session
and committed while producing it. -/
structure HookOutcome where
  status : Nat
  mimetype : String
  recorded : List Deployment
deriving DecidableEq

/-- Lines 111-113 of the handler: compute
hmac.new(target.key.encode(), request.body, hashlib.sha1).hexdigest(),
slice the offered header with [len("sha1="):], and compare with
hmac.compare_digest. headers.get returning None makes the slice raise
TypeError. -/
def verifySignature (key : String) (body : List Nat) (header : Option String) :
    Except HookError Bool :=
  let verification := bytesToHex (hmacSha1 (encode key) body)
  match header with
  | none => .error .typeError
  | some sig => compareDigest (strDrop sig "sha1=".length) verification

/-- Lines 111-127 of the handler, after the target lookup succeeded:
signature check (404 on mismatch), event check by Python `!=` between the
event header and the whole events column (204 on inequality), JSON parse of
the body (`parse` stands for json.loads(request.body.decode()), which can
raise), ref membership check (204 on absence), then execution, recording
and 200. -/
def hookBody (target : Target) (req : Request)
    (parse : List Nat → Except HookError JValue) (env : ExecEnv) :
    Except HookError HookOutcome :=
  match verifySignature target.key req.body req.xHubSignature with
  | .error e => .error e
  | .ok ok =>
    if !ok then .ok ⟨404, "text/plain", []⟩
    else if !(pyJEq (headerToPy req.xGitHubEvent) target.events) then
      .ok ⟨204, "text/plain", []⟩
    else
      match parse req.body with
      | .error e => .error e
      | .ok data =>
        match pyGetItem data "ref" with
        | .error e => .error e
        | .ok ref =>
          match pyIn ref target.refs with
          | .error e => .error e
          | .ok mem =>
            if !mem then .ok ⟨204, "text/plain", []⟩
            else .ok ⟨200, "text/plain", [target.execute env]⟩

/-- The hook endpoint (lines 103-127): Target.query.filter_by(id=id).first()
is the `store` lookup; None yields the 404 response. -/
def hook (store : String → Option Target) (id : String) (req : Request)
    (parse : List Nat → Except HookError JValue) (env : ExecEnv) :
    Except HookError HookOutcome :=
  match store id with
  | none => .ok ⟨404, "text/plain", []⟩
  | some target => hookBody target req parse env

/-- Target creation by the CLI (ploy.py lines 189-196): `events` and `refs`
are stored as JSON lists of strings, `description` and `enabled` keep their
column defaults. -/
def createTarget (id key : String) (events refs args : List String)
    (timeout : Option Nat) : Target :=
  { id := id, key := key, events := .arr (events.map .str),
    refs := .arr (refs.map .str), args := args, timeout := timeout }

/-! ## Specification-side definitions

These follow the words of the specification, for comparison against the
embedded code. -/

/-- Following the specification of EventMatcher (§4.2): the event header is
a member of the target's `events` collection (the specification types
`events` as a set of accepted webhook event names). -/
def specEventMember (h : Option String) (v : JValue) : Bool :=
  match v, h with
  | .arr l, some s => l.any (fun e => pyJEq (.str s) e)
  | _, _ => false

/-- Completed outcome shape of §3: elapsed_time, status, stdout, stderr all
set, timed_out and raised_exception false. -/
def Deployment.isCompleted (d : Deployment) : Prop :=
  d.elapsed_time ≠ none ∧ d.status ≠ none ∧ d.stdout ≠ none ∧ d.stderr ≠ none ∧
    d.timed_out = false ∧ d.raised_exception = false

/-- TimedOut outcome shape of §3: timed_out true, timeout and elapsed_time
set, status, stdout, stderr unset. -/
def Deployment.isTimedOut (d : Deployment) : Prop :=
  d.timed_out = true ∧ d.timeout ≠ none ∧ d.elapsed_time ≠ none ∧
    d.status = none ∧ d.stdout = none ∧ d.stderr = none

/-- LaunchFailed outcome shape of §3: raised_exception true, exception set,
elapsed_time, status, stdout, stderr all unset. -/
def Deployment.isLaunchFailed (d : Deployment) : Prop :=
  d.raised_exception = true ∧ d.exception ≠ none ∧ d.elapsed_time = none ∧
    d.status = none ∧ d.stdout = none ∧ d.stderr = none

/-- Exactly one of the three outcome shapes holds. -/
def exactlyOneShape (d : Deployment) : Prop :=
  (d.isCompleted ∧ ¬d.isTimedOut ∧ ¬d.isLaunchFailed) ∨
  (¬d.isCompleted ∧ d.isTimedOut ∧ ¬d.isLaunchFailed) ∨
  (¬d.isCompleted ∧ ¬d.isTimedOut ∧ d.isLaunchFailed)

/-- A single-bit mutation of a string: the character at index i has bit j
of its code point flipped. -/
def flipBit (s : String) (i j : Nat) : String :=
  String.mk (s.data.take i ++
    (match s.data.drop i with
     | [] => []
     | c :: rest => Char.ofNat (c.toNat ^^^ (1 <<< j)) :: rest))

/-! ## Concrete instances

Small concrete stores, targets, requests and environments used to evaluate
the embedded handler on closed inputs. -/

/-- A decoder for captured output; irrelevant to control flow. -/
def decode0 : List Nat → String := fun _ => ""

/-- The JSON parse of `bodyJson`: an object whose ref is refs/heads/deploy. -/
def parse0 : List Nat → Except HookError JValue :=
  fun _ => .ok (.obj [("ref", .str "refs/heads/deploy")])

/-- A JSON parse producing a ref outside every fixture's refs list. -/
def parseOther : List Nat → Except HookError JValue :=
  fun _ => .ok (.obj [("ref", .str "refs/heads/other")])

/-- Environment where the process runs to completion with exit status 0. -/
def env0 : ExecEnv := ⟨0, decode0, .launched (.finished [] [] 0 1)⟩

/-- Environment where process creation fails with an OSError. -/
def envOs : ExecEnv := ⟨0, decode0, .osError "exec format error"⟩

/-- Environment where the process exceeds its bound. -/
def envTimedOut : ExecEnv := ⟨0, decode0, .launched (.timedOut 2)⟩

/-- The webhook body bytes: a JSON object with ref refs/heads/deploy. -/
def bodyJson : List Nat := encode "\x7b\"ref\": \"refs/heads/deploy\"\x7d"

/-- The X-Hub-Signature value GitHub would send for a body under a secret. -/
def sigFor (key : String) (body : List Nat) : String :=
  "sha1=" ++ bytesToHex (hmacSha1 (encode key) body)

/-- A target whose events column holds the bare string "push". -/
def tEvStr : Target :=
  { id := "site", key := "s3cr3t", events := .str "push",
    refs := .arr [.str "refs/heads/deploy"], args := ["true"] }

/-- A target created through the CLI: events is a list of strings. -/
def tCli : Target := createTarget "cli" "s3cr3t" ["push"] ["refs/heads/deploy"] ["true"] none

/-- A second CLI-created target with two accepted events. -/
def tCli2 : Target :=
  createTarget "cli2" "s3cr3t" ["push", "release"] ["refs/heads/main"] ["make"] (some 30)

/-- A disabled target that is otherwise fully matching. -/
def tDisabled : Target :=
  { id := "dis", enabled := false, key := "s3cr3t", events := .str "push",
    refs := .arr [.str "refs/heads/deploy"], args := ["deploy.sh"] }

/-- A target with an execution bound. -/
def tBounded : Target :=
  { id := "slow", key := "k4", events := .str "push",
    refs := .arr [.str "refs/heads/deploy"], args := ["sleep", "5"], timeout := some 1 }

/-- The store holding the fixture targets. -/
def store1 : String → Option Target := fun i =>
  if i == "site" then some tEvStr
  else if i == "cli" then some tCli
  else if i == "cli2" then some tCli2
  else if i == "dis" then some tDisabled
  else none

/-- A correctly signed push request against tEvStr. -/
def reqGood : Request :=
  { body := bodyJson, xHubSignature := some (sigFor "s3cr3t" bodyJson),
    xGitHubEvent := some "push" }

/-- A request whose offered signature is wrong. -/
def reqBadSig : Request :=
  { body := bodyJson, xHubSignature := some "sha1=0000", xGitHubEvent := some "push" }

/-! ## Auxiliary facts -/

theorem string_data_append (a b : String) : (a ++ b).data = a.data ++ b.data := by
  cases a
  cases b
  rfl

theorem hexChar_ascii (n : Nat) (h : n < 16) : (hexChar n).toNat < 128 :=
  (by decide : ∀ m, m < 16 → (hexChar m).toNat < 128) n h

theorem bytesToHex_ascii (bs : List Nat) : ∀ c ∈ (bytesToHex bs).data, c.toNat < 128 := by
  intro c hc
  simp only [bytesToHex, List.mem_flatten, List.mem_map] at hc
  obtain ⟨l, ⟨b, _, rfl⟩, hcl⟩ := hc
  simp only [byteToHex, List.mem_cons, List.not_mem_nil, or_false] at hcl
  rcases hcl with rfl | rfl <;> exact hexChar_ascii _ (Nat.mod_lt _ (by omega))

theorem isAscii_bytesToHex (bs : List Nat) : isAsciiStr (bytesToHex bs) = true := by
  simp only [isAsciiStr, List.all_eq_true, decide_eq_true_eq]
  exact bytesToHex_ascii bs

theorem isAscii_strDrop (s : String) (n : Nat) (h : isAsciiStr s = true) :
    isAsciiStr (strDrop s n) = true := by
  simp only [isAsciiStr, List.all_eq_true, decide_eq_true_eq] at h ⊢
  intro c hc
  exact h c (List.mem_of_mem_drop hc)

theorem beBytes_length (k n : Nat) : (beBytes k n).length = k := by
  simp [beBytes]

theorem sha1_length (msg : List Nat) : (sha1 msg).length = 20 := by
  simp [sha1, beBytes_length]

theorem hmacSha1_length (key msg : List Nat) : (hmacSha1 key msg).length = 20 := by
  unfold hmacSha1
  simp [sha1_length]

theorem bytesToHex_data_length (bs : List Nat) :
    (bytesToHex bs).data.length = 2 * bs.length := by
  induction bs with
  | nil => rfl
  | cons b rest ih =>
    simp only [bytesToHex, byteToHex, List.map_cons, List.flatten_cons] at ih ⊢
    simp at ih ⊢
    omega

theorem toNat_charOfNat {n : Nat} (h : n < 128) : (Char.ofNat n).toNat = n := by
  unfold Char.ofNat
  rw [dif_pos]
  · rfl
  · exact Or.inl (by omega)

theorem strDrop_sha1_append (s : String) : strDrop ("sha1=" ++ s) "sha1=".length = s := by
  cases s
  rfl

theorem flipBit_ne (s : String) (i j : Nat) (hi : i < s.data.length)
    (hascii : ∀ c ∈ s.data, c.toNat < 128) (hj : j < 7) : flipBit s i j ≠ s := by
  have hdrop : s.data.drop i = s.data[i] :: s.data.drop (i + 1) :=
    List.drop_eq_getElem_cons hi
  have hxor_lt : s.data[i].toNat ^^^ (1 <<< j) < 128 := by
    have h1 : s.data[i].toNat < 128 := hascii _ (List.getElem_mem hi)
    have h2 : (1 : Nat) <<< j < 128 := by
      rw [Nat.shiftLeft_eq, one_mul]
      calc (2 : Nat) ^ j ≤ 2 ^ 6 := Nat.pow_le_pow_right (by omega) (by omega)
        _ < 128 := by norm_num
    simpa using Nat.xor_lt_two_pow (n := 7) h1 h2
  intro h
  have hdata := congrArg String.data h
  simp only [flipBit, hdrop] at hdata
  conv at hdata => rhs; rw [← List.take_append_drop i s.data, hdrop]
  have hcons := (List.append_right_inj (s.data.take i)).mp hdata
  have hc : Char.ofNat (s.data[i].toNat ^^^ (1 <<< j)) = s.data[i] := by
    injection hcons
  have htoNat := congrArg Char.toNat hc
  rw [toNat_charOfNat hxor_lt] at htoNat
  have hz : (1 : Nat) <<< j = 0 := by
    have h2 := congrArg (fun x => s.data[i].toNat ^^^ x) htoNat
    simpa [Nat.xor_cancel_left, Nat.xor_self, eq_comm] using h2.symm
  rw [Nat.shiftLeft_eq, one_mul] at hz
  exact absurd hz (Nat.pos_iff_ne_zero.mp (Nat.pos_pow_of_pos j (by omega)))

theorem flipBit_ascii (s : String) (i j : Nat)
    (hascii : ∀ c ∈ s.data, c.toNat < 128) (hj : j < 7) :
    ∀ c ∈ (flipBit s i j).data, c.toNat < 128 := by
  intro c hc
  rcases hd : s.data.drop i with _ | ⟨c0, rest⟩ <;> simp only [flipBit, hd] at hc
  · simp only [List.append_nil] at hc
    exact hascii c (List.mem_of_mem_take hc)
  · rcases List.mem_append.mp hc with h1 | h2
    · exact hascii c (List.mem_of_mem_take h1)
    · rcases List.mem_cons.mp h2 with rfl | h3
      · have hc0 : c0 ∈ s.data := List.mem_of_mem_drop (hd ▸ List.mem_cons_self c0 rest)
        have h1 : c0.toNat < 128 := hascii _ hc0
        have h2 : (1 : Nat) <<< j < 128 := by
          rw [Nat.shiftLeft_eq, one_mul]
          calc (2 : Nat) ^ j ≤ 2 ^ 6 := Nat.pow_le_pow_right (by omega) (by omega)
            _ < 128 := by norm_num
        have hlt : c0.toNat ^^^ (1 <<< j) < 128 := by
          simpa using Nat.xor_lt_two_pow (n := 7) h1 h2
        rw [toNat_charOfNat hlt]
        exact hlt
      · have : c ∈ s.data.drop i := hd ▸ List.mem_cons_of_mem c0 h3
        exact hascii c (List.mem_of_mem_drop this)

theorem pyJEq_header_arr (h : Option String) (l : List JValue) :
    pyJEq (headerToPy h) (.arr l) = false := by
  cases h <;> rfl

theorem isAscii_append (a b : String) :
    isAsciiStr (a ++ b) = (isAsciiStr a && isAsciiStr b) := by
  simp [isAsciiStr, string_data_append, List.all_append]

theorem strDrop_len5_append (p s : String) (hp : p.data.length = 5) :
    strDrop (p ++ s) "sha1=".length = s := by
  obtain ⟨lp⟩ := p
  obtain ⟨ls⟩ := s
  simp only [strDrop, string_data_append]
  have h5 : "sha1=".length = lp.length := hp.symm
  rw [h5, List.drop_left]

theorem verify_sigFor_ok (key : String) (body : List Nat) :
    verifySignature key body (some (sigFor key body)) = .ok true := by
  simp only [verifySignature, sigFor, strDrop_sha1_append, compareDigest,
    isAscii_bytesToHex, Bool.and_self, if_true, beq_self_eq_true]

theorem verify_ascii_beq (key : String) (body : List Nat) (sig : String)
    (ha : isAsciiStr sig = true) :
    verifySignature key body (some sig) =
      .ok (strDrop sig "sha1=".length == bytesToHex (hmacSha1 (encode key) body)) := by
  simp [verifySignature, compareDigest, isAscii_strDrop _ _ ha, isAscii_bytesToHex]

theorem verify_wrong_length_sig_fails (key : String) (body : List Nat) (sig : String)
    (ha : isAsciiStr sig = true)
    (hlen : (strDrop sig "sha1=".length).data.length ≠ 40) :
    verifySignature key body (some sig) = .ok false := by
  rw [verify_ascii_beq key body sig ha]
  have hne : strDrop sig "sha1=".length ≠ bytesToHex (hmacSha1 (encode key) body) := by
    intro h
    apply hlen
    rw [h, bytesToHex_data_length, hmacSha1_length]
  simp [beq_eq_false_iff_ne, hne]

/-- FIPS 180 test vector, validating the sha1 embedding. -/
theorem sha1_test_vector :
    bytesToHex (sha1 (encode "abc")) = "a9993e364706816aba3e25717850c26c9cd0d89d" := by
  decide

/-- RFC 2202 test vector, validating the hmacSha1 embedding. -/
theorem hmacSha1_test_vector :
    bytesToHex (hmacSha1 (encode "key")
      (encode "The quick brown fox jumps over the lazy dog")) =
      "de7c9b85b8b78aa6bc8a7a36f70a90701c9db4d9" := by
  decide

/-! ## Claims -/

/-- Claim C2, counterexample: with the header absent the handler raises a
TypeError (None is sliced) instead of returning false, and a header whose
first five characters are not "sha1=" but whose remainder is the correct
digest is accepted, so verification neither "never raises" nor rejects
every malformed prefix. -/
theorem verifySignature_counterexample :
    verifySignature "k" [] none = .error .typeError ∧
    verifySignature "k" [] (some ("XXXX=" ++ bytesToHex (hmacSha1 (encode "k") []))) =
      .ok true := by
  refine ⟨rfl, ?_⟩
  rw [verify_ascii_beq "k" [] _
    (by rw [isAscii_append, isAscii_bytesToHex]; rfl)]
  rw [strDrop_len5_append _ _ (by rfl)]
  simp [beq_self_eq_true]

/-- Claim C2, amended: signature verification returns false rather than
raising for a present all-ASCII header whose remainder after dropping the
first five characters (whatever they are) differs from the expected digest
- which covers wrong-length digests and mismatches - but an absent header
raises a TypeError, and any present header whose remainder equals the
digest is accepted regardless of its first five characters. -/
theorem verifySignature_amended (key : String) (body : List Nat) (sig : String) :
    verifySignature key body none = .error .typeError ∧
    (isAsciiStr sig = true →
      verifySignature key body (some sig) =
        .ok (strDrop sig "sha1=".length == bytesToHex (hmacSha1 (encode key) body))) := by
  exact ⟨rfl, fun ha => verify_ascii_beq key body sig ha⟩

theorem verifySignature_amended_witness :
    verifySignature "k" [] none = .error .typeError ∧
    verifySignature "k" [] (some "sha1=00") =
      .ok (strDrop "sha1=00" "sha1=".length == bytesToHex (hmacSha1 (encode "k") [])) :=
  ⟨(verifySignature_amended "k" [] "sha1=00").1,
   (verifySignature_amended "k" [] "sha1=00").2 (by decide)⟩

/-- Claim C3: for every secret and body, offering "sha1=" followed by the
lowercase hex HMAC-SHA1 digest of the body under the secret verifies, and
flipping any single bit of any character of that hex digest makes
verification fail. -/
theorem verify_good_digest_and_single_bitflip (key : String) (body : List Nat) :
    verifySignature key body
      (some ("sha1=" ++ bytesToHex (hmacSha1 (encode key) body))) = .ok true ∧
    ∀ i j, i < 40 → j < 7 →
      verifySignature key body
        (some ("sha1=" ++ flipBit (bytesToHex (hmacSha1 (encode key) body)) i j)) =
          .ok false := by
  constructor
  · simp only [verifySignature, strDrop_sha1_append, compareDigest, isAscii_bytesToHex,
      Bool.and_self, if_true, beq_self_eq_true]
  · intro i j hi hj
    have hlen : (bytesToHex (hmacSha1 (encode key) body)).data.length = 40 := by
      rw [bytesToHex_data_length, hmacSha1_length]
    have hascii := bytesToHex_ascii (hmacSha1 (encode key) body)
    have hne := flipBit_ne (bytesToHex (hmacSha1 (encode key) body)) i j (by omega) hascii hj
    have hfa : isAsciiStr (flipBit (bytesToHex (hmacSha1 (encode key) body)) i j) = true := by
      simp only [isAsciiStr, List.all_eq_true, decide_eq_true_eq]
      exact flipBit_ascii _ i j hascii hj
    simp only [verifySignature, strDrop_sha1_append, compareDigest, isAscii_bytesToHex,
      hfa, Bool.and_self, if_true]
    simp [beq_eq_false_iff_ne, hne]

theorem verify_good_digest_and_single_bitflip_witness :
    verifySignature "k" [] (some ("sha1=" ++ bytesToHex (hmacSha1 (encode "k") []))) =
      .ok true ∧
    verifySignature "k" []
      (some ("sha1=" ++ flipBit (bytesToHex (hmacSha1 (encode "k") [])) 0 0)) = .ok false :=
  ⟨(verify_good_digest_and_single_bitflip "k" []).1,
   (verify_good_digest_and_single_bitflip "k" []).2 0 0 (by decide) (by decide)⟩

/-- Claim C4: Target.execute is a total function into Deployment for every
behaviour of the subprocess machinery (no exception escapes), and each of
the three process-creation failure classes yields a deployment with
raised_exception set and an exception message specific to that class, the
three messages being pairwise distinct for every rendering of the
underlying errors. -/
theorem execute_total_and_launch_failures_distinguished (t : Target) (now : Nat)
    (dec : List Nat → String) (m m' : String) :
    (∀ spawn : SpawnResult, ∃ d : Deployment, Target.execute t ⟨now, dec, spawn⟩ = d) ∧
    (Target.execute t ⟨now, dec, .osError m⟩).raised_exception = true ∧
    (Target.execute t ⟨now, dec, .osError m⟩).exception =
      some ("operating system error: " ++ m) ∧
    (Target.execute t ⟨now, dec, .valueError⟩).raised_exception = true ∧
    (Target.execute t ⟨now, dec, .valueError⟩).exception = some "failed to open process" ∧
    (Target.execute t ⟨now, dec, .subprocessError m'⟩).raised_exception = true ∧
    (Target.execute t ⟨now, dec, .subprocessError m'⟩).exception =
      some ("subprocess error: " ++ m') ∧
    (Target.execute t ⟨now, dec, .osError m⟩).exception ≠
      (Target.execute t ⟨now, dec, .valueError⟩).exception ∧
    (Target.execute t ⟨now, dec, .osError m⟩).exception ≠
      (Target.execute t ⟨now, dec, .subprocessError m'⟩).exception ∧
    (Target.execute t ⟨now, dec, .valueError⟩).exception ≠
      (Target.execute t ⟨now, dec, .subprocessError m'⟩).exception := by
  refine ⟨fun spawn => ⟨Target.execute t ⟨now, dec, spawn⟩, rfl⟩,
    rfl, rfl, rfl, rfl, rfl, rfl, ?_, ?_, ?_⟩
  · intro h
    obtain ⟨x⟩ := m
    have h2 : ("operating system error: " ++ String.mk x) = "failed to open process" :=
      Option.some.inj h
    have hlen := congrArg String.length h2
    rw [String.length_append] at hlen
    have h3 : (24 : Nat) + x.length = 22 := hlen
    omega
  · intro h
    obtain ⟨x⟩ := m
    obtain ⟨y⟩ := m'
    have h2 := Option.some.inj h
    have hd := congrArg String.data h2
    rw [string_data_append, string_data_append] at hd
    injection hd with h1 _
    exact absurd h1 (by decide)
  · intro h
    obtain ⟨y⟩ := m'
    have h2 := Option.some.inj h
    have hd := congrArg String.data h2
    rw [string_data_append] at hd
    injection hd with h1 _
    exact absurd h1 (by decide)

theorem execute_total_and_launch_failures_distinguished_witness :
    (Target.execute tEvStr ⟨0, decode0, .osError "boom"⟩).exception ≠
      (Target.execute tEvStr ⟨0, decode0, .valueError⟩).exception :=
  (execute_total_and_launch_failures_distinguished tEvStr 0 decode0 "boom"
    "x").2.2.2.2.2.2.2.1

/-- Claim C5: under the subprocess semantics that a TimeoutExpired only
occurs when a bound was passed to communicate, every Deployment returned by
execute is in exactly one of the three outcome shapes: Completed, TimedOut,
or LaunchFailed, with the field settings of each shape as specified. -/
theorem execute_exactly_one_outcome_shape (t : Target) (env : ExecEnv)
    (hbound : ∀ e, env.spawn = .launched (.timedOut e) → t.timeout ≠ none) :
    exactlyOneShape (t.execute env) := by
  obtain ⟨now, dec, spawn⟩ := env
  match spawn with
  | .launched (.finished out err code elapsed) =>
    left
    simp [Target.execute, Deployment.isCompleted, Deployment.isTimedOut,
      Deployment.isLaunchFailed]
  | .launched (.timedOut e) =>
    right; left
    have hb : t.timeout ≠ none := hbound e rfl
    simp [Target.execute, Deployment.isCompleted, Deployment.isTimedOut,
      Deployment.isLaunchFailed, hb]
  | .osError msg =>
    right; right
    simp [Target.execute, Deployment.isCompleted, Deployment.isTimedOut,
      Deployment.isLaunchFailed]
  | .valueError =>
    right; right
    simp [Target.execute, Deployment.isCompleted, Deployment.isTimedOut,
      Deployment.isLaunchFailed]
  | .subprocessError msg =>
    right; right
    simp [Target.execute, Deployment.isCompleted, Deployment.isTimedOut,
      Deployment.isLaunchFailed]

theorem execute_exactly_one_outcome_shape_witness :
    exactlyOneShape (Target.execute tBounded envTimedOut) :=
  execute_exactly_one_outcome_shape tBounded envTimedOut
    (fun e _ => by simp [tBounded])

/-- Claim C6: an unknown target id and a known target whose offered
signature fails comparison produce the identical 404 text/plain response
with no deployment recorded, so the two cases are indistinguishable to the
caller. -/
theorem hook_unknown_and_bad_signature_identical (store : String → Option Target)
    (id : String) (req : Request) (parse : List Nat → Except HookError JValue)
    (env : ExecEnv) (t : Target) :
    (store id = none → hook store id req parse env = .ok ⟨404, "text/plain", []⟩) ∧
    (store id = some t →
      verifySignature t.key req.body req.xHubSignature = .ok false →
      hook store id req parse env = .ok ⟨404, "text/plain", []⟩) := by
  constructor
  · intro h
    simp [hook, h]
  · intro h hv
    simp [hook, h, hookBody, hv]

theorem hook_unknown_and_bad_signature_identical_witness :
    hook store1 "ghost" reqBadSig parse0 env0 = .ok ⟨404, "text/plain", []⟩ ∧
    hook store1 "site" reqBadSig parse0 env0 = .ok ⟨404, "text/plain", []⟩ :=
  ⟨(hook_unknown_and_bad_signature_identical store1 "ghost" reqBadSig parse0 env0 tEvStr).1
      rfl,
   (hook_unknown_and_bad_signature_identical store1 "site" reqBadSig parse0 env0 tEvStr).2
      rfl (verify_wrong_length_sig_fails "s3cr3t" bodyJson "sha1=0000"
        (by decide) (by decide))⟩

/-- Claim C7: for every request whose target is found, whose signature
verifies, whose event check passes, and whose parsed ref is a member of the
refs list, the handler records exactly the deployment produced by execute -
whatever the execution environment does, so LaunchFailed, TimedOut and
Completed outcomes alike - and responds 200. -/
theorem hook_execution_always_recorded_and_200 (store : String → Option Target)
    (id : String) (req : Request) (parse : List Nat → Except HookError JValue)
    (env : ExecEnv) (t : Target) (data ref : JValue)
    (hstore : store id = some t)
    (hver : verifySignature t.key req.body req.xHubSignature = .ok true)
    (hev : pyJEq (headerToPy req.xGitHubEvent) t.events = true)
    (hparse : parse req.body = .ok data)
    (href : pyGetItem data "ref" = .ok ref)
    (hmem : pyIn ref t.refs = .ok true) :
    hook store id req parse env = .ok ⟨200, "text/plain", [t.execute env]⟩ := by
  simp [hook, hstore, hookBody, hver, hev, hparse, href, hmem]

theorem hook_execution_always_recorded_and_200_witness :
    hook store1 "site" reqGood parse0 envOs =
      .ok ⟨200, "text/plain", [Target.execute tEvStr envOs]⟩ :=
  hook_execution_always_recorded_and_200 store1 "site" reqGood parse0 envOs tEvStr
    (.obj [("ref", .str "refs/heads/deploy")]) (.str "refs/heads/deploy")
    rfl (verify_sigFor_ok "s3cr3t" bodyJson) rfl rfl rfl rfl

/-- Claim C8: for every request whose target is found and whose signature
verifies, failure of the event check or of the ref check yields the 204
text/plain response with nothing recorded, for every behaviour of the
execution environment - so no process is spawned and no deployment is
created. -/
theorem hook_event_or_ref_mismatch_204_no_execution (store : String → Option Target)
    (id : String) (req : Request) (parse : List Nat → Except HookError JValue)
    (t : Target)
    (hstore : store id = some t)
    (hver : verifySignature t.key req.body req.xHubSignature = .ok true) :
    (pyJEq (headerToPy req.xGitHubEvent) t.events = false →
      ∀ env : ExecEnv, hook store id req parse env = .ok ⟨204, "text/plain", []⟩) ∧
    (∀ data ref, pyJEq (headerToPy req.xGitHubEvent) t.events = true →
      parse req.body = .ok data → pyGetItem data "ref" = .ok ref →
      pyIn ref t.refs = .ok false →
      ∀ env : ExecEnv, hook store id req parse env = .ok ⟨204, "text/plain", []⟩) := by
  constructor
  · intro hev env
    simp [hook, hstore, hookBody, hver, hev]
  · intro data ref hev hparse href hmem env
    simp [hook, hstore, hookBody, hver, hev, hparse, href, hmem]

theorem hook_event_or_ref_mismatch_204_no_execution_witness :
    hook store1 "cli" reqGood parse0 env0 = .ok ⟨204, "text/plain", []⟩ ∧
    hook store1 "site" reqGood parseOther env0 = .ok ⟨204, "text/plain", []⟩ :=
  ⟨(hook_event_or_ref_mismatch_204_no_execution store1 "cli" reqGood parse0 tCli
      rfl (verify_sigFor_ok "s3cr3t" bodyJson)).1 rfl env0,
   (hook_event_or_ref_mismatch_204_no_execution store1 "site" reqGood parseOther tEvStr
      rfl (verify_sigFor_ok "s3cr3t" bodyJson)).2
      (.obj [("ref", .str "refs/heads/other")]) (.str "refs/heads/other")
      rfl rfl rfl rfl env0⟩

/-- Claim C1, counterexample: a CLI-created target accepting the push event
receives a correctly signed push webhook whose event header is a member of
the events list and whose ref is a member of the refs list, yet the handler
rejects it at the event stage with 204 and records nothing - so acceptance
is not "exactly when both memberships hold". -/
theorem hook_event_membership_counterexample :
    specEventMember reqGood.xGitHubEvent tCli.events = true ∧
    pyIn (.str "refs/heads/deploy") tCli.refs = .ok true ∧
    hook store1 "cli" reqGood parse0 env0 = .ok ⟨204, "text/plain", []⟩ := by
  refine ⟨rfl, rfl, ?_⟩
  have hs : store1 "cli" = some tCli := rfl
  have hv : verifySignature tCli.key reqGood.body reqGood.xHubSignature = .ok true :=
    verify_sigFor_ok "s3cr3t" bodyJson
  have hev : pyJEq (headerToPy reqGood.xGitHubEvent) tCli.events = false := rfl
  simp [hook, hs, hookBody, hv, hev]

/-- Claim C1, amended: for every request past signature verification, the
ref check does use membership, but the event check compares the event
header with the entire stored events value using Python equality; the
request is rejected with 204 exactly when that equality fails or the ref
membership fails, and is accepted (executed and recorded, with 200) exactly
when the equality and the membership both hold. -/
theorem hook_match_amended (store : String → Option Target) (id : String)
    (req : Request) (parse : List Nat → Except HookError JValue) (env : ExecEnv)
    (t : Target) (data ref : JValue) (mem : Bool)
    (hstore : store id = some t)
    (hver : verifySignature t.key req.body req.xHubSignature = .ok true)
    (hparse : parse req.body = .ok data)
    (href : pyGetItem data "ref" = .ok ref)
    (hmem : pyIn ref t.refs = .ok mem) :
    hook store id req parse env =
      if pyJEq (headerToPy req.xGitHubEvent) t.events = false then
        .ok ⟨204, "text/plain", []⟩
      else if mem = false then .ok ⟨204, "text/plain", []⟩
      else .ok ⟨200, "text/plain", [t.execute env]⟩ := by
  cases hev : pyJEq (headerToPy req.xGitHubEvent) t.events
  · simp [hook, hstore, hookBody, hver, hev]
  · cases mem
    · simp [hook, hstore, hookBody, hver, hev, hparse, href, hmem]
    · simp [hook, hstore, hookBody, hver, hev, hparse, href, hmem]

theorem hook_match_amended_witness :
    hook store1 "site" reqGood parse0 env0 =
      .ok ⟨200, "text/plain", [Target.execute tEvStr env0]⟩ := by
  have h := hook_match_amended store1 "site" reqGood parse0 env0 tEvStr
    (.obj [("ref", .str "refs/heads/deploy")]) (.str "refs/heads/deploy") true
    rfl (verify_sigFor_ok "s3cr3t" bodyJson) rfl rfl rfl
  rw [h]
  rfl

/-- Claim C9, counterexample: a disabled target whose request passes every
check is executed and recorded with a 200 response: the hook endpoint never
consults the enabled flag, so disabled targets do reach execution. -/
theorem hook_disabled_target_executes :
    tDisabled.enabled = false ∧
    hook store1 "dis" reqGood parse0 env0 =
      .ok ⟨200, "text/plain", [Target.execute tDisabled env0]⟩ := by
  refine ⟨rfl, ?_⟩
  have hs : store1 "dis" = some tDisabled := rfl
  have hv : verifySignature tDisabled.key reqGood.body reqGood.xHubSignature = .ok true :=
    verify_sigFor_ok "s3cr3t" bodyJson
  have hev : pyJEq (headerToPy reqGood.xGitHubEvent) tDisabled.events = true := rfl
  have hparse : parse0 reqGood.body = .ok (.obj [("ref", .str "refs/heads/deploy")]) := rfl
  have href : pyGetItem (.obj [("ref", .str "refs/heads/deploy")]) "ref" =
      .ok (.str "refs/heads/deploy") := rfl
  have hmem : pyIn (.str "refs/heads/deploy") tDisabled.refs = .ok true := rfl
  simp [hook, hs, hookBody, hv, hev, hparse, href, hmem]

/-- Claim C9, amended: the hook never consults the enabled flag: overriding
it to any fixed value in every stored target changes neither the response
nor the recorded deployments of any request, so disabled targets are
processed - and executed - exactly as enabled ones. -/
theorem hook_ignores_enabled (store : String → Option Target) (b : Bool) (id : String)
    (req : Request) (parse : List Nat → Except HookError JValue) (env : ExecEnv) :
    hook (fun i => (store i).map (fun t => { t with enabled := b })) id req parse env =
      hook store id req parse env := by
  simp only [hook]
  cases h : store id with
  | none => simp [h]
  | some t =>
    simp only [h, Option.map_some]
    cases t
    rfl

/-- Claim C10: for every target whose events column is a JSON list (as the
CLI always creates), every request that passes signature verification
receives 204 with nothing recorded, because the event check compares the
header string with the whole list using Python equality and a string never
equals a list. -/
theorem hook_list_events_always_204 (store : String → Option Target) (id : String)
    (req : Request) (parse : List Nat → Except HookError JValue) (env : ExecEnv)
    (t : Target) (l : List JValue)
    (hstore : store id = some t)
    (hevents : t.events = .arr l)
    (hver : verifySignature t.key req.body req.xHubSignature = .ok true) :
    hook store id req parse env = .ok ⟨204, "text/plain", []⟩ := by
  have hev : pyJEq (headerToPy req.xGitHubEvent) t.events = false := by
    rw [hevents]
    exact pyJEq_header_arr _ _
  simp [hook, hstore, hookBody, hver, hev]

theorem hook_list_events_always_204_witness :
    hook store1 "cli2" reqGood parse0 env0 = .ok ⟨204, "text/plain", []⟩ :=
  hook_list_events_always_204 store1 "cli2" reqGood parse0 env0 tCli2
    [.str "push", .str "release"] rfl rfl (verify_sigFor_ok "s3cr3t" bodyJson)

end Ploy
